import Mathlib

/-!
Shallow embedding of the AIVID frontend core: the backend RPC client
(`handleBackendRequest` and its per-endpoint action wrappers), the Studio
controller handlers (`handleGenerationSubmit`, `handleEditSubmit`,
`handleClear`), and the design-chat submit handler, together with theorems
settling the specification claims about them.
-/

namespace AIVID

/-- Models the JavaScript values that can occur in a request payload object:
`undefined`, `null`, or a string (prompts, styles, modes, data URIs). -/
inductive JsValue where
  | undefined
  | null
  | str (s : String)
deriving DecidableEq, Repr

/-- Models the check `value !== undefined && value !== null` used by the
multipart encoder in `handleBackendRequest`. -/
def JsValue.isPresent : JsValue → Bool
  | .undefined => false
  | .null => false
  | .str _ => true

/-- A request payload object: an ordered list of key/value entries, as
enumerated by `Object.entries`. -/
def Payload : Type := List (String × JsValue)

instance : DecidableEq Payload := inferInstanceAs (DecidableEq (List (String × JsValue)))

/-- The two body encodings `handleBackendRequest` can produce: multipart form
data (for `/generate-design`) or a JSON body (for every other endpoint). -/
inductive RequestBody where
  | formData (fields : List (String × JsValue))
  | jsonBody (payload : List (String × JsValue))
deriving DecidableEq, Repr

/-- The HTTP request built by `handleBackendRequest` before it is handed to
`fetch`: URL, method, optional content-type header, and body. -/
structure Request where
  url : String
  method : String
  contentType : Option String
  body : RequestBody
deriving DecidableEq, Repr

/-- Default backend base URL (`process.env.BACKEND_URL || 'http://localhost:8001'`). -/
def BACKEND_URL : String := "http://localhost:8001"

/-- Models lines 12-34 of the RPC client: for the `/generate-design` endpoint
the payload is encoded as multipart form data, appending exactly the entries
whose value is neither `undefined` nor `null`; for every other endpoint the
payload is serialized as a JSON body with a JSON content-type header. -/
def buildRequest (endpoint : String) (input : List (String × JsValue)) : Request :=
  if endpoint == "/generate-design" then
    { url := BACKEND_URL ++ endpoint
      method := "POST"
      contentType := none
      body := .formData (input.filter (fun kv => kv.2.isPresent)) }
  else
    { url := BACKEND_URL ++ endpoint
      method := "POST"
      contentType := some "application/json"
      body := .jsonBody input }

/-- The tagged result union
`{ success: true; data: U } | { success: false; error: string }`. -/
inductive ActionResult (U : Type) where
  | success (data : U)
  | failure (error : String)
deriving DecidableEq, Repr

/-- Models `ActionResult.isFailure`: whether the tag is `success: false`. -/
def ActionResult.isFailure {U : Type} : ActionResult U → Bool
  | .failure _ => true
  | .success _ => false

/-- Environment behaviour of one run of the `try` block of
`handleBackendRequest`: either some `Error` is thrown (during request
construction, transport, `response.text()` or `response.json()` is modelled
by the parse outcome), or a non-`Error` value is thrown, or a response
arrives with a status, a body text, and a JSON-parse outcome for that body
(`Except.error m` models `response.json()` throwing an `Error` with
message `m`). -/
inductive Transport (J : Type) where
  | throwErr (message : String)
  | throwNonError
  | respond (status : Nat) (bodyText : String) (jsonParse : Except String J)

/-- Models `Response.ok`: status in the inclusive range 200-299. -/
def responseOk (status : Nat) : Bool :=
  decide (200 ≤ status) && decide (status ≤ 299)

/-- Models `handleBackendRequest` (lines 8-48): build the request for the
endpoint, run the transport, and normalize every outcome to an
`ActionResult`. A thrown `Error` yields its message; a thrown non-`Error`
yields the generic message; a non-2xx response yields the thrown-and-caught
`Backend request failed with status ...` message; a 2xx response yields the
parsed JSON as a success, or the parse failure message. The caller never
sees an exception: the function is total. -/
def handleBackendRequest {J : Type} (endpoint : String)
    (input : List (String × JsValue)) (t : Transport J) : ActionResult J :=
  let _req : Request := buildRequest endpoint input
  match t with
  | .throwErr m => .failure m
  | .throwNonError => .failure "An unknown error occurred."
  | .respond status bodyText jsonParse =>
      if responseOk status then
        match jsonParse with
        | .ok v => .success v
        | .error m => .failure m
      else
        .failure ("Backend request failed with status " ++ toString status
          ++ ": " ++ bodyText)

/-- Action wrapper for `/generate-design`. -/
def generateDesignAction {J : Type} (input : List (String × JsValue))
    (t : Transport J) : ActionResult J :=
  handleBackendRequest "/generate-design" input t

/-- Action wrapper for `/chat` (also imported by the studio as
`editDesignAction`). -/
def chatAction {J : Type} (input : List (String × JsValue))
    (t : Transport J) : ActionResult J :=
  handleBackendRequest "/chat" input t

/-- Action wrapper for `/suggest-edits`. -/
def suggestEditsAction {J : Type} (input : List (String × JsValue))
    (t : Transport J) : ActionResult J :=
  handleBackendRequest "/suggest-edits" input t

/-- Action wrapper for `/generate-new-prompt`. -/
def generatePromptAction {J : Type} (input : List (String × JsValue))
    (t : Transport J) : ActionResult J :=
  handleBackendRequest "/generate-new-prompt" input t

/-- Action wrapper for `/flow/generate-image-prompt`. -/
def flowGenerateImagePrompt {J : Type} (input : List (String × JsValue))
    (t : Transport J) : ActionResult J :=
  handleBackendRequest "/flow/generate-image-prompt" input t

/-- Action wrapper for `/flow/generate-interior-design-from-prompt`. -/
def flowGenerateInteriorDesign {J : Type} (input : List (String × JsValue))
    (t : Transport J) : ActionResult J :=
  handleBackendRequest "/flow/generate-interior-design-from-prompt" input t

/-- Action wrapper for `/flow/edit-interior-design-with-text`. -/
def flowEditInteriorDesign {J : Type} (input : List (String × JsValue))
    (t : Transport J) : ActionResult J :=
  handleBackendRequest "/flow/edit-interior-design-with-text" input t

/-- Action wrapper for `/flow/get-design-suggestions-from-chat`. -/
def flowGetDesignSuggestions {J : Type} (input : List (String × JsValue))
    (t : Transport J) : ActionResult J :=
  handleBackendRequest "/flow/get-design-suggestions-from-chat" input t

/-- Action wrapper for `/flow/summarize-design-styles`. -/
def flowSummarizeDesignStyles {J : Type} (input : List (String × JsValue))
    (t : Transport J) : ActionResult J :=
  handleBackendRequest "/flow/summarize-design-styles" input t

/-- Action wrapper for `/flow/suggest-image-edits`. -/
def flowSuggestImageEdits {J : Type} (input : List (String × JsValue))
    (t : Transport J) : ActionResult J :=
  handleBackendRequest "/flow/suggest-image-edits" input t

/-- Action wrapper for `/flow/generate-image-from-cad-floor-plan`. -/
def flowGenerateImageFromCadFloorPlan {J : Type} (input : List (String × JsValue))
    (t : Transport J) : ActionResult J :=
  handleBackendRequest "/flow/generate-image-from-cad-floor-plan" input t

/-- Substring containment: `sub` occurs contiguously inside `s`. -/
def strContains (s sub : String) : Prop :=
  ∃ p q, s = p ++ sub ++ q

/-- A user-selected file handle (`File`); only its identity matters here,
since reading its content is modelled by `ReadResult`. -/
structure JsFile where
  name : String
deriving DecidableEq, Repr

/-- Shape of a successful `/generate-design` response
(`GenerateDesignOutput`); only the `data` image list is consumed. -/
structure GenOutput where
  data : List String
deriving DecidableEq, Repr

/-- Shape of a successful `/chat` response (`ChatOutput`): a single text
string under `data`. -/
structure ChatOutput where
  data : String
deriving DecidableEq, Repr

/-- The Studio component state: the seven `useState` hooks of `Studio()`. -/
structure StudioState where
  prompt : String
  style : String
  activeTab : String
  sourceImageFile : Option JsFile
  floorPlanFile : Option JsFile
  generatedImages : Option (List String)
  selectedImageIndex : Nat
deriving DecidableEq, Repr

/-- A transient notice raised via `toast`: its title and description. -/
structure Toast where
  title : String
  description : String
deriving DecidableEq, Repr

/-- A dispatched backend call, recorded as the endpoint fixed by the invoked
action wrapper together with the payload object passed to it. -/
structure SentRequest where
  endpoint : String
  payload : List (String × JsValue)
deriving DecidableEq, Repr

/-- Outcome of one `fileToDataUri` read: the `FileReader` either resolves
with a data-URI string, or rejects. The rejection value is the error event,
which is not an `Error` object. -/
inductive ReadResult where
  | ok (dataUri : String)
  | fileErr
deriving DecidableEq, Repr

/-- Environment of one generation submission: the outcome of the (at most
one) file read and the result the (at most one) `generateDesignAction`
call would return. -/
structure GenEnv where
  readResult : ReadResult
  actionResult : ActionResult GenOutput
deriving DecidableEq, Repr

/-- Result of running one studio handler: the final component state, the
toasts raised, and the backend calls dispatched. -/
structure SubmitOutcome where
  state : StudioState
  toasts : List Toast
  calls : List SentRequest
deriving DecidableEq, Repr

/-- Models `handleClear` (lines 39-42): discard the generated images and
reset the selected index; no other field is touched. -/
def handleClear (s : StudioState) : StudioState :=
  { s with generatedImages := none, selectedImageIndex := 0 }

/-- Models `resetInputs` (lines 35-37): clear the prompt field only. -/
def resetInputs (s : StudioState) : StudioState :=
  { s with prompt := "" }

/-- Models `result?.error || 'An unexpected error occurred.'`: the error
string, or the generic default when it is falsy (empty). -/
def orUnexpected (e : String) : String :=
  if e == "" then "An unexpected error occurred." else e

/-- The destructive toast raised when mode-specific required fields are
missing. -/
def missingFieldsToast (description : String) : Toast :=
  ⟨"Missing fields", description⟩

/-- The destructive toast raised by the `catch` block of
`handleGenerationSubmit`. -/
def generationFailedToast (description : String) : Toast :=
  ⟨"Generation Failed", description⟩

/-- Models `handleGenerationSubmit` (lines 44-98). The transition first sets
`generatedImages` to `null`, then validates the active mode (JavaScript
falsiness on the string fields, `null` checks on the file fields), reads the
involved file if any (a rejected read jumps to `catch` with a non-`Error`
value, so the toast shows the generic fallback), calls
`generateDesignAction` with the mode-specific payload, and on success stores
the returned image list, resets the selected index and clears the prompt; a
failure result is rethrown as an `Error` and caught, raising a
`Generation Failed` toast. An unrecognized mode returns after the initial
clear. -/
def handleGenerationSubmit (mode : String) (s : StudioState)
    (env : GenEnv) : SubmitOutcome :=
  let s0 : StudioState := { s with generatedImages := none }
  if mode == "text" then
    if s.prompt == "" || s.style == "" then
      ⟨s0, [missingFieldsToast "Please provide a prompt and select a style."], []⟩
    else
      let call : SentRequest :=
        ⟨"/generate-design",
          [("prompt", JsValue.str s.prompt), ("style", JsValue.str s.style),
           ("mode", JsValue.str "text")]⟩
      match env.actionResult with
      | .success d =>
          ⟨resetInputs { s0 with generatedImages := some d.data, selectedImageIndex := 0 },
            [], [call]⟩
      | .failure e => ⟨s0, [generationFailedToast (orUnexpected e)], [call]⟩
  else if mode == "image" then
    if s.sourceImageFile.isNone || s.prompt == "" then
      ⟨s0, [missingFieldsToast "Please upload a base image and provide an edit prompt."], []⟩
    else
      match env.readResult with
      | .fileErr => ⟨s0, [generationFailedToast "Please try again later."], []⟩
      | .ok baseImage =>
          let call : SentRequest :=
            ⟨"/generate-design",
              [("prompt", JsValue.str s.prompt), ("style", JsValue.str s.style),
               ("mode", JsValue.str "image"), ("baseImage", JsValue.str baseImage)]⟩
          match env.actionResult with
          | .success d =>
              ⟨resetInputs { s0 with generatedImages := some d.data, selectedImageIndex := 0 },
                [], [call]⟩
          | .failure e => ⟨s0, [generationFailedToast (orUnexpected e)], [call]⟩
  else if mode == "floorplan" then
    if s.floorPlanFile.isNone || s.style == "" then
      ⟨s0, [missingFieldsToast "Please upload a floor plan and select a style."], []⟩
    else
      match env.readResult with
      | .fileErr => ⟨s0, [generationFailedToast "Please try again later."], []⟩
      | .ok floorPlan =>
          let call : SentRequest :=
            ⟨"/generate-design",
              [("prompt", JsValue.str s.prompt), ("style", JsValue.str s.style),
               ("mode", JsValue.str "floorplan"), ("floorPlan", JsValue.str floorPlan)]⟩
          match env.actionResult with
          | .success d =>
              ⟨resetInputs { s0 with generatedImages := some d.data, selectedImageIndex := 0 },
                [], [call]⟩
          | .failure e => ⟨s0, [generationFailedToast (orUnexpected e)], [call]⟩
  else
    ⟨s0, [], []⟩

/-- The mode-specific required-field validation of `handleGenerationSubmit`
(the negation of its short-circuit conditions). -/
def genValidationOk (mode : String) (s : StudioState) : Bool :=
  if mode == "text" then !(s.prompt == "") && !(s.style == "")
  else if mode == "image" then s.sourceImageFile.isSome && !(s.prompt == "")
  else if mode == "floorplan" then s.floorPlanFile.isSome && !(s.style == "")
  else false

/-- A generation submission fails when validation passes but the run ends in
the `catch` block: the file read rejects (in the two file modes) or the
action returns a failure result. -/
def genSubmitFails (mode : String) (s : StudioState) (env : GenEnv) : Bool :=
  genValidationOk mode s &&
    (if mode == "text" then env.actionResult.isFailure
     else (env.readResult == .fileErr) || env.actionResult.isFailure)

/-- Models `handleEditSubmit` (lines 100-125). With no displayed image the
handler short-circuits with a toast. Otherwise it reads the selected image
into a local that is never used again, dispatches `editDesignAction` (an
alias of `chatAction`, endpoint `/chat`) with a single `query` field, and on
success replaces the image array with the single returned string and resets
the selection; on failure the state is untouched and an `Edit Failed` toast
is raised. -/
def handleEditSubmit (editPrompt : String) (s : StudioState)
    (res : ActionResult ChatOutput) : SubmitOutcome :=
  let noImage : Bool :=
    match s.generatedImages with
    | none => true
    | some imgs => imgs.isEmpty
  if noImage then
    ⟨s, [⟨"No image to edit", "Please generate an image first."⟩], []⟩
  else
    let _baseImage : String :=
      ((s.generatedImages.getD []).getD s.selectedImageIndex "")
    let call : SentRequest :=
      ⟨"/chat",
        [("query",
          JsValue.str ("Edit this image with the following prompt: " ++ editPrompt))]⟩
    match res with
    | .success d =>
        ⟨{ s with generatedImages := some [d.data], selectedImageIndex := 0 },
          [], [call]⟩
    | .failure e => ⟨s, [⟨"Edit Failed", orUnexpected e⟩], [call]⟩

/-- Chat message role (`'user' | 'assistant'`). -/
inductive Role where
  | user
  | assistant
deriving DecidableEq, Repr

/-- A chat transcript entry (`Message`). -/
structure Message where
  role : Role
  content : String
deriving DecidableEq, Repr

/-- The `DesignChat` component state: transcript, input box, pending flag. -/
structure ChatState where
  messages : List Message
  input : String
  isPending : Bool
deriving DecidableEq, Repr

/-- Models JavaScript `String.prototype.trim`: strip leading and trailing
whitespace. -/
def jsTrim (s : String) : String :=
  ⟨((s.data.dropWhile Char.isWhitespace).reverse.dropWhile Char.isWhitespace).reverse⟩

/-- Models the synchronous phase of `DesignChat.handleSubmit` (lines 31-39):
if the trimmed input is empty or a request is pending, nothing happens;
otherwise the user message is appended, the input is cleared and the
transition starts. -/
def chatSubmitStart (s : ChatState) : ChatState :=
  if jsTrim s.input == "" || s.isPending then s
  else
    { s with
        messages := s.messages ++ [⟨Role.user, s.input⟩]
        input := ""
        isPending := true }

/-- Models the transition body of `DesignChat.handleSubmit` (lines 40-52),
with the closure captures `messages` (pre-submission transcript) and
`newMessages` explicit: on success the assistant reply is appended to
`newMessages`; on failure a toast is raised and the transcript is set back
to the captured pre-submission `messages`. -/
def chatSubmitFinish (capturedMessages newMessages : List Message)
    (s : ChatState) (res : ActionResult ChatOutput) : ChatState × List Toast :=
  match res with
  | .success d =>
      ({ s with
          messages := newMessages ++ [⟨Role.assistant, d.data⟩]
          isPending := false }, [])
  | .failure e =>
      ({ s with messages := capturedMessages, isPending := false },
        [⟨"Error", e⟩])

/-- The whole of `DesignChat.handleSubmit` for one submission whose chat
call returns `res`. -/
def chatHandleSubmit (s : ChatState) (res : ActionResult ChatOutput) :
    ChatState × List Toast :=
  if jsTrim s.input == "" || s.isPending then (s, [])
  else
    let capturedMessages := s.messages
    let newMessages := s.messages ++ [⟨Role.user, s.input⟩]
    let started : ChatState :=
      { s with messages := newMessages, input := "", isPending := true }
    chatSubmitFinish capturedMessages newMessages started res

/-- A concrete studio state used to exercise the handlers: a non-empty
prompt and style and one previously displayed generated image. -/
def genCexState : StudioState :=
  { prompt := "p", style := "Modern", activeTab := "text", sourceImageFile := none,
    floorPlanFile := none, generatedImages := some ["imgA"], selectedImageIndex := 0 }

/-- A concrete environment in which the generation action fails with the
backend message `model overloaded`. -/
def genCexEnv : GenEnv :=
  { readResult := .ok "uri", actionResult := .failure "model overloaded" }

/-- A concrete environment in which the generation action succeeds with two
image URLs. -/
def genWitEnv : GenEnv :=
  { readResult := .ok "uri", actionResult := .success ⟨["img1", "img2"]⟩ }

/-- A concrete payload with one present and two absent values. -/
def encWitPayload : List (String × JsValue) :=
  [("prompt", JsValue.str "p"), ("baseImage", JsValue.undefined),
   ("floorPlan", JsValue.null)]

/-- A concrete chat state with an empty transcript and a pending input. -/
def chatCexState : ChatState := { messages := [], input := "hi", isPending := false }

theorem string_append_assoc (a b c : String) : a ++ b ++ c = a ++ (b ++ c) := by
  apply String.ext
  simp [String.data_append, List.append_assoc]

theorem string_append_empty (a : String) : a ++ "" = a := by
  apply String.ext
  simp [String.data_append]

/-- C1, counterexample: with one image previously displayed and a failing
text-mode submission, the displayed image array after the submission
(`none`) is not its pre-submission value (`some ["imgA"]`), even though the
error is surfaced via a notice — the handler clears the images at the start
of the transition, so the claim that failures leave the displayed images
untouched is false. -/
theorem generation_failure_preserves_images_cex :
    (handleGenerationSubmit "text" genCexState genCexEnv).state.generatedImages ≠
      genCexState.generatedImages ∧
    (handleGenerationSubmit "text" genCexState genCexEnv).toasts =
      [generationFailedToast "model overloaded"] := by decide

/-- C1, amended: on every generation submission that fails (failure result
from the action, or file-read rejection, in any of the three modes), the
displayed image array ends `none` — it is cleared at submission start and
not restored — with the rest of the state unchanged, and exactly one
`Generation Failed` notice is raised; when the failure is a failure result
(and any file read succeeded), the notice carries that error message. -/
theorem generation_failure_clears_images
    (mode : String) (s : StudioState) (env : GenEnv)
    (hfails : genSubmitFails mode s env = true) :
    (handleGenerationSubmit mode s env).state = { s with generatedImages := none } ∧
    (∃ d, (handleGenerationSubmit mode s env).toasts = [generationFailedToast d]) ∧
    (∀ e u, env.actionResult = ActionResult.failure e → env.readResult = ReadResult.ok u →
      (handleGenerationSubmit mode s env).toasts =
        [generationFailedToast (orUnexpected e)]) := by
  by_cases ht : (mode == "text") = true
  · cases hres : env.actionResult with
    | success d => exfalso; simp_all [genSubmitFails, genValidationOk, ActionResult.isFailure]
    | failure e =>
      by_cases hp : (s.prompt == "") = true
      · exfalso; simp_all [genSubmitFails, genValidationOk]
      · by_cases hs : (s.style == "") = true
        · exfalso; simp_all [genSubmitFails, genValidationOk]
        · rw [Bool.not_eq_true] at hp hs
          refine ⟨?_, ⟨orUnexpected e, ?_⟩, ?_⟩
          · simp [handleGenerationSubmit, ht, hp, hs, hres]
          · simp [handleGenerationSubmit, ht, hp, hs, hres]
          · intro e2 u he hu
            injection he with he2
            subst he2
            simp [handleGenerationSubmit, ht, hp, hs, hres]
  · by_cases hi : (mode == "image") = true
    · rw [Bool.not_eq_true] at ht
      cases hsrcv : s.sourceImageFile with
      | none => exfalso; simp_all [genSubmitFails, genValidationOk]
      | some f =>
        by_cases hp : (s.prompt == "") = true
        · exfalso; simp_all [genSubmitFails, genValidationOk]
        · rw [Bool.not_eq_true] at hp
          cases hr : env.readResult with
          | fileErr =>
            refine ⟨?_, ⟨"Please try again later.", ?_⟩, ?_⟩
            · simp [handleGenerationSubmit, ht, hi, hsrcv, hp, hr]
            · simp [handleGenerationSubmit, ht, hi, hsrcv, hp, hr]
            · intro e2 u he hu; cases hu
          | ok uri =>
            cases hres : env.actionResult with
            | success d =>
                exfalso
                simp_all [genSubmitFails, genValidationOk, ActionResult.isFailure]
            | failure e =>
              refine ⟨?_, ⟨orUnexpected e, ?_⟩, ?_⟩
              · simp [handleGenerationSubmit, ht, hi, hsrcv, hp, hr, hres]
              · simp [handleGenerationSubmit, ht, hi, hsrcv, hp, hr, hres]
              · intro e2 u he hu
                injection he with he2
                subst he2
                simp [handleGenerationSubmit, ht, hi, hsrcv, hp, hr, hres]
    · by_cases hfp : (mode == "floorplan") = true
      · rw [Bool.not_eq_true] at ht hi
        cases hfpv : s.floorPlanFile with
        | none => exfalso; simp_all [genSubmitFails, genValidationOk]
        | some f =>
          by_cases hs : (s.style == "") = true
          · exfalso; simp_all [genSubmitFails, genValidationOk]
          · rw [Bool.not_eq_true] at hs
            cases hr : env.readResult with
            | fileErr =>
              refine ⟨?_, ⟨"Please try again later.", ?_⟩, ?_⟩
              · simp [handleGenerationSubmit, ht, hi, hfp, hfpv, hs, hr]
              · simp [handleGenerationSubmit, ht, hi, hfp, hfpv, hs, hr]
              · intro e2 u he hu; cases hu
            | ok uri =>
              cases hres : env.actionResult with
              | success d =>
                  exfalso
                  simp_all [genSubmitFails, genValidationOk, ActionResult.isFailure]
              | failure e =>
                refine ⟨?_, ⟨orUnexpected e, ?_⟩, ?_⟩
                · simp [handleGenerationSubmit, ht, hi, hfp, hfpv, hs, hr, hres]
                · simp [handleGenerationSubmit, ht, hi, hfp, hfpv, hs, hr, hres]
                · intro e2 u he hu
                  injection he with he2
                  subst he2
                  simp [handleGenerationSubmit, ht, hi, hfp, hfpv, hs, hr, hres]
      · exfalso
        rw [Bool.not_eq_true] at ht hi hfp
        simp [genSubmitFails, genValidationOk, ht, hi, hfp] at hfails

theorem generation_failure_clears_images_witness :
    (handleGenerationSubmit "text" genCexState genCexEnv).state =
      { genCexState with generatedImages := none } :=
  (generation_failure_clears_images "text" genCexState genCexEnv (by decide)).1

/-- C2, counterexample: an image-mode submission with no selected source
file and one image previously displayed raises the `Missing fields` notice
and makes no network call, but it is not a no-op on the session state: the
displayed image array is cleared before validation runs. -/
theorem missing_fields_noop_cex :
    (handleGenerationSubmit "image" genCexState genCexEnv).state.generatedImages ≠
      genCexState.generatedImages ∧
    (handleGenerationSubmit "image" genCexState genCexEnv).calls = [] ∧
    (handleGenerationSubmit "image" genCexState genCexEnv).toasts =
      [missingFieldsToast "Please upload a base image and provide an edit prompt."] := by
  decide

/-- C2, amended: on every submission whose required fields for the active
mode are missing, no network call is made and a `Missing fields` notice is
shown, and the session state is unchanged except that the displayed image
array is cleared to `none` (it is cleared at transition start, before
validation). -/
theorem missing_fields_short_circuit
    (mode : String) (s : StudioState) (env : GenEnv)
    (hmode : mode = "text" ∨ mode = "image" ∨ mode = "floorplan")
    (hinvalid : genValidationOk mode s = false) :
    (handleGenerationSubmit mode s env).calls = [] ∧
    (∃ d, (handleGenerationSubmit mode s env).toasts = [missingFieldsToast d]) ∧
    (handleGenerationSubmit mode s env).state = { s with generatedImages := none } := by
  rcases hmode with h | h | h <;> subst h
  · have hor : (s.prompt == "" || s.style == "") = true := by
      cases hp : s.prompt == "" <;> cases hsy : s.style == "" <;>
        simp_all [genValidationOk]
    refine ⟨?_, ⟨"Please provide a prompt and select a style.", ?_⟩, ?_⟩ <;>
      simp [handleGenerationSubmit, hor]
  · have hor : (s.sourceImageFile.isNone || s.prompt == "") = true := by
      cases hsrc : s.sourceImageFile <;> cases hp : s.prompt == "" <;>
        simp_all [genValidationOk]
    refine ⟨?_, ⟨"Please upload a base image and provide an edit prompt.", ?_⟩, ?_⟩ <;>
      simp [handleGenerationSubmit, hor]
  · have hor : (s.floorPlanFile.isNone || s.style == "") = true := by
      cases hfpl : s.floorPlanFile <;> cases hsy : s.style == "" <;>
        simp_all [genValidationOk]
    refine ⟨?_, ⟨"Please upload a floor plan and select a style.", ?_⟩, ?_⟩ <;>
      simp [handleGenerationSubmit, hor]

theorem missing_fields_short_circuit_witness :
    (handleGenerationSubmit "image" genCexState genCexEnv).calls = [] :=
  (missing_fields_short_circuit "image" genCexState genCexEnv
    (Or.inr (Or.inl rfl)) (by decide)).1

/-- C3, counterexample: submitting `hi` from an empty transcript appends the
user message, but when the chat call fails the transition sets the
transcript back to the captured pre-submission list, removing that message
— so the transcript is not append-only. -/
theorem chat_append_only_cex :
    (Message.mk Role.user "hi") ∈ (chatSubmitStart chatCexState).messages ∧
    (Message.mk Role.user "hi") ∉
      (chatHandleSubmit chatCexState (ActionResult.failure "boom")).1.messages := by
  decide

/-- C3, amended: the submit step appends the user message at the end and the
success step appends the assistant reply at the end, but the error step is
not append-only: it reverts the transcript to its pre-submission value,
removing the user message appended at submission, and raises an error
toast. -/
theorem chat_transcript_steps (s : ChatState) (res : ActionResult ChatOutput)
    (hinput : (jsTrim s.input == "") = false) (hpending : s.isPending = false) :
    (chatSubmitStart s).messages = s.messages ++ [⟨Role.user, s.input⟩] ∧
    (∀ d, res = ActionResult.success d →
      (chatHandleSubmit s res).1.messages =
        (chatSubmitStart s).messages ++ [⟨Role.assistant, d.data⟩]) ∧
    (∀ e, res = ActionResult.failure e →
      (chatHandleSubmit s res).1.messages = s.messages ∧
      (chatHandleSubmit s res).2 = [⟨"Error", e⟩]) := by
  refine ⟨by simp [chatSubmitStart, hinput, hpending], ?_, ?_⟩
  · intro d hd; subst hd
    simp [chatHandleSubmit, chatSubmitStart, chatSubmitFinish, hinput, hpending]
  · intro e he; subst he
    constructor <;> simp [chatHandleSubmit, chatSubmitFinish, hinput, hpending]

theorem chat_transcript_steps_witness :
    (chatHandleSubmit chatCexState (ActionResult.failure "boom")).1.messages =
      chatCexState.messages :=
  ((chat_transcript_steps chatCexState (ActionResult.failure "boom")
    (by decide) rfl).2.2 "boom" rfl).1

/-- C4: for every response with a non-2xx status, `handleBackendRequest`
returns a failure result (never throwing — the function is total on every
transport outcome) whose error string contains both the HTTP status and the
response body text. -/
theorem rpc_non2xx_failure {J : Type} (endpoint : String)
    (input : List (String × JsValue)) (status : Nat) (bodyText : String)
    (jsonParse : Except String J) (hko : responseOk status = false) :
    handleBackendRequest endpoint input (Transport.respond status bodyText jsonParse) =
      ActionResult.failure
        ("Backend request failed with status " ++ toString status ++ ": " ++ bodyText) ∧
    strContains ("Backend request failed with status " ++ toString status ++ ": " ++ bodyText)
      (toString status) ∧
    strContains ("Backend request failed with status " ++ toString status ++ ": " ++ bodyText)
      bodyText := by
  refine ⟨by simp [handleBackendRequest, hko], ?_, ?_⟩
  · exact ⟨"Backend request failed with status ", ": " ++ bodyText,
      string_append_assoc ("Backend request failed with status " ++ toString status)
        ": " bodyText⟩
  · exact ⟨"Backend request failed with status " ++ toString status ++ ": ", "",
      (string_append_empty _).symm⟩

theorem rpc_non2xx_failure_witness :
    handleBackendRequest (J := ChatOutput) "/chat" []
      (Transport.respond 500 "model overloaded" (Except.error "parse")) =
    ActionResult.failure
      ("Backend request failed with status " ++ toString 500 ++ ": " ++ "model overloaded") :=
  (rpc_non2xx_failure "/chat" [] 500 "model overloaded" (Except.error "parse") (by decide)).1

/-- C5: on every input and every transport behaviour, `handleBackendRequest`
returns a tagged `ActionResult` (success or failure, never an exception);
a thrown `Error` becomes a failure carrying its message, a thrown
non-`Error` value becomes a failure with the generic default message, and a
JSON-parse failure on a 2xx response becomes a failure with the parse error
message; each action dispatch wrapper is exactly `handleBackendRequest` at
its fixed endpoint, so the guarantee extends to every wrapper. -/
theorem rpc_never_throws {J : Type} (endpoint : String)
    (input : List (String × JsValue)) (t : Transport J) :
    ((∃ u, handleBackendRequest endpoint input t = ActionResult.success u) ∨
     (∃ e, handleBackendRequest endpoint input t = ActionResult.failure e)) ∧
    (∀ m, t = Transport.throwErr m →
      handleBackendRequest endpoint input t = ActionResult.failure m) ∧
    (t = Transport.throwNonError →
      handleBackendRequest endpoint input t =
        ActionResult.failure "An unknown error occurred.") ∧
    (∀ status bodyText m, t = Transport.respond status bodyText (Except.error m) →
      responseOk status = true →
      handleBackendRequest endpoint input t = ActionResult.failure m) ∧
    generateDesignAction input t = handleBackendRequest "/generate-design" input t ∧
    chatAction input t = handleBackendRequest "/chat" input t ∧
    suggestEditsAction input t = handleBackendRequest "/suggest-edits" input t ∧
    generatePromptAction input t = handleBackendRequest "/generate-new-prompt" input t ∧
    flowGenerateImagePrompt input t =
      handleBackendRequest "/flow/generate-image-prompt" input t ∧
    flowGenerateInteriorDesign input t =
      handleBackendRequest "/flow/generate-interior-design-from-prompt" input t ∧
    flowEditInteriorDesign input t =
      handleBackendRequest "/flow/edit-interior-design-with-text" input t ∧
    flowGetDesignSuggestions input t =
      handleBackendRequest "/flow/get-design-suggestions-from-chat" input t ∧
    flowSummarizeDesignStyles input t =
      handleBackendRequest "/flow/summarize-design-styles" input t ∧
    flowSuggestImageEdits input t =
      handleBackendRequest "/flow/suggest-image-edits" input t ∧
    flowGenerateImageFromCadFloorPlan input t =
      handleBackendRequest "/flow/generate-image-from-cad-floor-plan" input t := by
  refine ⟨?_, ?_, ?_, ?_, rfl, rfl, rfl, rfl, rfl, rfl, rfl, rfl, rfl, rfl, rfl⟩
  · cases t with
    | throwErr m => exact Or.inr ⟨m, rfl⟩
    | throwNonError => exact Or.inr ⟨_, rfl⟩
    | respond status bodyText jsonParse =>
        by_cases hok : responseOk status = true
        · cases jsonParse with
          | ok v => exact Or.inl ⟨v, by simp [handleBackendRequest, hok]⟩
          | error m => exact Or.inr ⟨m, by simp [handleBackendRequest, hok]⟩
        · rw [Bool.not_eq_true] at hok
          exact Or.inr ⟨"Backend request failed with status " ++ toString status
            ++ ": " ++ bodyText, by simp [handleBackendRequest, hok]⟩
  · intro m hm; subst hm; rfl
  · intro hm; subst hm; rfl
  · intro status bodyText m hm hok; subst hm; simp [handleBackendRequest, hok]

theorem rpc_never_throws_witness :
    handleBackendRequest (J := ChatOutput) "/chat" [] Transport.throwNonError =
      ActionResult.failure "An unknown error occurred." :=
  (rpc_never_throws "/chat" [] Transport.throwNonError).2.2.1 rfl

/-- C6: on every generation submission whose validation passes, whose file
read (if any) resolves and whose action succeeds, the displayed image array
becomes exactly the result's image list, the selected index becomes 0, the
prompt is cleared and no notice is raised. -/
theorem generation_success_updates_state
    (mode : String) (s : StudioState) (env : GenEnv) (d : GenOutput) (u : String)
    (hvalid : genValidationOk mode s = true)
    (hread : env.readResult = ReadResult.ok u)
    (hres : env.actionResult = ActionResult.success d) :
    (handleGenerationSubmit mode s env).state.generatedImages = some d.data ∧
    (handleGenerationSubmit mode s env).state.selectedImageIndex = 0 ∧
    (handleGenerationSubmit mode s env).state.prompt = "" ∧
    (handleGenerationSubmit mode s env).toasts = [] := by
  by_cases ht : (mode == "text") = true
  · have hp : (s.prompt == "") = false := by
      cases hp : s.prompt == "" <;> simp_all [genValidationOk]
    have hs : (s.style == "") = false := by
      cases hsy : s.style == "" <;> simp_all [genValidationOk]
    simp [handleGenerationSubmit, ht, hp, hs, hres, resetInputs]
  · by_cases hi : (mode == "image") = true
    · rw [Bool.not_eq_true] at ht
      have hp : (s.prompt == "") = false := by
        cases hp : s.prompt == "" <;> simp_all [genValidationOk]
      have hsrc : s.sourceImageFile.isNone = false := by
        cases hsrc : s.sourceImageFile <;> simp_all [genValidationOk]
      simp [handleGenerationSubmit, ht, hi, hp, hsrc, hread, hres, resetInputs]
    · by_cases hfp : (mode == "floorplan") = true
      · rw [Bool.not_eq_true] at ht hi
        have hs : (s.style == "") = false := by
          cases hsy : s.style == "" <;> simp_all [genValidationOk]
        have hfpl : s.floorPlanFile.isNone = false := by
          cases hfpl : s.floorPlanFile <;> simp_all [genValidationOk]
        simp [handleGenerationSubmit, ht, hi, hfp, hs, hfpl, hread, hres, resetInputs]
      · exfalso
        rw [Bool.not_eq_true] at ht hi hfp
        simp [genValidationOk, ht, hi, hfp] at hvalid

theorem generation_success_updates_state_witness :
    (handleGenerationSubmit "text" genCexState genWitEnv).state.generatedImages =
      some ["img1", "img2"] :=
  (generation_success_updates_state "text" genCexState genWitEnv
    ⟨["img1", "img2"]⟩ "uri" (by decide) rfl rfl).1

/-- C7: on every edit submission made while at least one generated image is
displayed, a success replaces the displayed array with the single edited
image and resets the selection to 0 with no notice, and a failure leaves
the whole state unchanged and raises an `Edit Failed` notice. -/
theorem edit_submit_success_failure
    (editPrompt : String) (s : StudioState) (imgs : List String)
    (res : ActionResult ChatOutput)
    (himg : s.generatedImages = some imgs) (hne : imgs ≠ []) :
    (∀ d, res = ActionResult.success d →
      (handleEditSubmit editPrompt s res).state.generatedImages = some [d.data] ∧
      (handleEditSubmit editPrompt s res).state.selectedImageIndex = 0 ∧
      (handleEditSubmit editPrompt s res).toasts = []) ∧
    (∀ e, res = ActionResult.failure e →
      (handleEditSubmit editPrompt s res).state = s ∧
      (handleEditSubmit editPrompt s res).toasts =
        [Toast.mk "Edit Failed" (orUnexpected e)]) := by
  cases imgs with
  | nil => exact absurd rfl hne
  | cons a as =>
    constructor
    · intro d hd; subst hd
      refine ⟨?_, ?_, ?_⟩ <;> simp [handleEditSubmit, himg]
    · intro e he; subst he
      constructor <;> simp [handleEditSubmit, himg]

theorem edit_submit_success_failure_witness :
    (handleEditSubmit "make the sofa blue" genCexState
      (ActionResult.success ⟨"edited"⟩)).state.generatedImages = some ["edited"] :=
  ((edit_submit_success_failure "make the sofa blue" genCexState ["imgA"]
    (ActionResult.success ⟨"edited"⟩) rfl (by decide)).1 ⟨"edited"⟩ rfl).1

/-- C8: for the design-generation endpoint the multipart encoding contains
exactly the payload entries whose value is neither `undefined` nor `null`
and omits exactly the rest; every other endpoint gets the payload as a JSON
body with a JSON content-type header. -/
theorem request_encoding (input : List (String × JsValue)) :
    ((buildRequest "/generate-design" input).body =
      RequestBody.formData (input.filter (fun kv => kv.2.isPresent)) ∧
     (∀ kv : String × JsValue,
        kv ∈ input.filter (fun kv => kv.2.isPresent) ↔
          kv ∈ input ∧ kv.2.isPresent = true)) ∧
    (∀ endpoint : String, endpoint ≠ "/generate-design" →
      (buildRequest endpoint input).body = RequestBody.jsonBody input ∧
      (buildRequest endpoint input).contentType = some "application/json") := by
  refine ⟨⟨by simp [buildRequest], ?_⟩, ?_⟩
  · intro kv; exact List.mem_filter
  · intro endpoint he
    constructor <;> simp [buildRequest, he]

theorem request_encoding_witness :
    (buildRequest "/chat" encWitPayload).body = RequestBody.jsonBody encWitPayload ∧
    (buildRequest "/chat" encWitPayload).contentType = some "application/json" :=
  (request_encoding encWitPayload).2 "/chat" (by decide)

/-- C9: on every studio state, the clear operation sets the displayed image
array to `none` and the selected index to 0, and leaves the prompt, style,
active tab and both file selections unchanged. -/
theorem clear_resets_images_only (s : StudioState) :
    (handleClear s).generatedImages = none ∧
    (handleClear s).selectedImageIndex = 0 ∧
    (handleClear s).prompt = s.prompt ∧
    (handleClear s).style = s.style ∧
    (handleClear s).activeTab = s.activeTab ∧
    (handleClear s).sourceImageFile = s.sourceImageFile ∧
    (handleClear s).floorPlanFile = s.floorPlanFile := by
  simp [handleClear]

/-- C10: every edit submission with a displayed image dispatches exactly one
request, to `/chat`, whose payload is the single `query` field holding the
fixed prefix followed by the edit prompt; the dispatched request does not
depend on the displayed images or selection (the selected image is read into
a local but never sent), and the single image stored on success is the chat
endpoint's returned text string. -/
theorem edit_dispatches_chat_query
    (editPrompt : String) (s : StudioState) (imgs : List String)
    (res : ActionResult ChatOutput)
    (himg : s.generatedImages = some imgs) (hne : imgs ≠ []) :
    (handleEditSubmit editPrompt s res).calls =
      [⟨"/chat",
        [("query",
          JsValue.str ("Edit this image with the following prompt: " ++ editPrompt))]⟩] ∧
    (∀ (s2 : StudioState) (imgs2 : List String), s2.generatedImages = some imgs2 →
      imgs2 ≠ [] →
      (handleEditSubmit editPrompt s2 res).calls =
        (handleEditSubmit editPrompt s res).calls) ∧
    (∀ d, res = ActionResult.success d →
      (handleEditSubmit editPrompt s res).state.generatedImages = some [d.data]) := by
  have hcall : ∀ (s3 : StudioState) (imgs3 : List String), s3.generatedImages = some imgs3 →
      imgs3 ≠ [] →
      (handleEditSubmit editPrompt s3 res).calls =
        [(⟨"/chat",
          [("query",
            JsValue.str ("Edit this image with the following prompt: " ++ editPrompt))]⟩ : SentRequest)] := by
    intro s3 imgs3 h3 hne3
    cases imgs3 with
    | nil => exact absurd rfl hne3
    | cons a as =>
      cases res with
      | success d => simp [handleEditSubmit, h3]
      | failure e => simp [handleEditSubmit, h3]
  refine ⟨hcall s imgs himg hne, ?_, ?_⟩
  · intro s2 imgs2 h2 hne2
    rw [hcall s2 imgs2 h2 hne2, hcall s imgs himg hne]
  · intro d hd; subst hd
    cases imgs with
    | nil => exact absurd rfl hne
    | cons a as => simp [handleEditSubmit, himg]

theorem edit_dispatches_chat_query_witness :
    (handleEditSubmit "make the sofa blue" genCexState
      (ActionResult.failure "x")).calls =
      [⟨"/chat",
        [("query",
          JsValue.str ("Edit this image with the following prompt: " ++ "make the sofa blue"))]⟩] :=
  (edit_dispatches_chat_query "make the sofa blue" genCexState ["imgA"]
    (ActionResult.failure "x") rfl (by decide)).1

end AIVID
